import Mathlib

/-!
Verification of the natural-language specification of the
`hass_seattle_utilities` integration against a shallow embedding of
`custom_components/seattle_utilities/seattle_utility_api.py`.

Conventions of the embedding:
* Python `float` values are modelled as exact rationals (`ℚ`); none of the
  verified properties depends on binary rounding.
* Python `datetime` objects are modelled by `PyDatetime`: a linearly ordered
  timestamp `t` (microseconds on an abstract timeline) together with the
  calendar month of that instant; only ordering and `.month` are used by the
  code under verification.
* Fallible Python code (exceptions) is modelled with `Except PyError`.
* Python `dict` objects are modelled as association lists with
  insert-or-replace update and first-match lookup, preserving insertion
  order exactly as CPython dicts do.
* Network I/O (`requests`) is external infrastructure; each network-touching
  function is parameterised by the decoded response data (or by a scripted
  list of responses where the number of requests made matters).
-/

/-- Python exception classes that the embedded code can raise. -/
inductive PyError where
  | typeError
  | attributeError
  | valueError
  | keyError
  | connectionError
  | httpError (status : ℕ)
  | authenticationTokenNotSet
  | parseError
deriving DecidableEq, Repr

/-- Model of a Python `datetime`: a point `t` on a linearly ordered timeline
(microseconds) plus the calendar month (1..12) of that instant.  The code
under verification uses only comparison of datetimes and the `.month`
accessor, so this abstraction is faithful. -/
structure PyDatetime where
  t : ℤ
  month : ℕ
deriving DecidableEq, Repr

instance : LE PyDatetime := ⟨fun a b => a.t ≤ b.t⟩

instance (a b : PyDatetime) : Decidable (a ≤ b) :=
  inferInstanceAs (Decidable (a.t ≤ b.t))

/-- Embeds the `Rates` dataclass: four monetary coefficients, all
defaulting to 0. -/
structure Rates where
  base : ℚ := 0
  first_block : ℚ := 0
  second_block : ℚ := 0
  misc_per_kWh : ℚ := 0
deriving DecidableEq, Repr

/-- Embeds the `MeterUsage` dataclass: a date, a measured kWh quantity and a
cost defaulting to 0. -/
structure MeterUsage where
  date : PyDatetime
  usage_kWh : ℚ
  cost : ℚ := 0
deriving DecidableEq, Repr

/-- Return value of `SeattleUtilityClient._estimate_usage_cost`.  The Python
function returns the **int** `0` when `self._rates is None` and the mutated
`MeterUsage` object otherwise; the two cases have different Python types, so
the embedding keeps them apart. -/
inductive EstimateResult where
  | intZero
  | usage (u : MeterUsage)
deriving DecidableEq, Repr

/-- The cost carried by an `EstimateResult`, when it is a usage record. -/
def EstimateResult.costOf : EstimateResult → Option ℚ
  | EstimateResult.intZero => none
  | EstimateResult.usage u => some u.cost

/-- Embeds `SeattleUtilityClient._estimate_usage_cost` (lines 396-413).
`rates` is the client's `self._rates` field.  Python's
`sum([base, a, b, c])` is `((0 + base) + a + b) + c`, which in `ℚ` equals
the left-associated sum written here. -/
def estimate_usage_cost (rates : Option Rates) (usage : MeterUsage) : EstimateResult :=
  match rates with
  | none => EstimateResult.intZero
  | some rates =>
    let is_summer := 4 ≤ usage.date.month ∧ usage.date.month ≤ 9
    let first_block_size : ℚ := if is_summer then 10 else 16
    let first_block_usage := min usage.usage_kWh first_block_size
    let second_block_usage := max 0 (usage.usage_kWh - first_block_size)
    let first_block_usage_cost := rates.first_block * first_block_usage
    let second_block_usage_cost := rates.second_block * second_block_usage
    let misc_usage_cost := rates.misc_per_kWh * usage.usage_kWh
    let total := rates.base + first_block_usage_cost + second_block_usage_cost + misc_usage_cost
    EstimateResult.usage { usage with cost := total }

/-- The seasonal first-tier block size as worded by the specification:
10 kWh when the month is in [4,9], 16 kWh otherwise. -/
def seasonBlockSize (month : ℕ) : ℚ :=
  if 4 ≤ month ∧ month ≤ 9 then 10 else 16

/-- C1: for every usage record and every present rate schedule the cost
calculator computes
`cost = base + first_block*min(kWh, blockSize) + second_block*max(0, kWh - blockSize) + misc_per_kWh*kWh`
with `blockSize = 10` for months in [4,9] and `16` otherwise; in particular
for `kWh = 0` the cost equals `rates.base` regardless of season. -/
theorem C1_cost_formula (r : Rates) (u : MeterUsage) :
    estimate_usage_cost (some r) u = EstimateResult.usage
      { u with cost := r.base + r.first_block * min u.usage_kWh (seasonBlockSize u.date.month)
          + r.second_block * max 0 (u.usage_kWh - seasonBlockSize u.date.month)
          + r.misc_per_kWh * u.usage_kWh }
    ∧ (u.usage_kWh = 0 →
      EstimateResult.costOf (estimate_usage_cost (some r) u) = some r.base) := by
  constructor
  · rfl
  · intro h0
    simp only [estimate_usage_cost, EstimateResult.costOf, h0]
    by_cases hs : 4 ≤ u.date.month ∧ u.date.month ≤ 9 <;> simp [hs]

/-- Witness for C1 at a concrete zero-usage winter record. -/
theorem C1_cost_formula_witness :
    EstimateResult.costOf
      (estimate_usage_cost (some { base := 2, first_block := 3, second_block := 5, misc_per_kWh := 7 })
        { date := { t := 0, month := 1 }, usage_kWh := 0, cost := 0 }) = some 2 :=
  (C1_cost_formula { base := 2, first_block := 3, second_block := 5, misc_per_kWh := 7 }
    { date := { t := 0, month := 1 }, usage_kWh := 0, cost := 0 }).2 rfl

/-- C9: the cost enrichment is idempotent: if one application of the cost
calculator (with rates present) produces the record `u₁`, applying it again
to `u₁` with the same rates produces `u₁` unchanged, hence the same cost. -/
theorem C9_idempotent (r : Rates) (u u₁ : MeterUsage)
    (h : estimate_usage_cost (some r) u = EstimateResult.usage u₁) :
    estimate_usage_cost (some r) u₁ = EstimateResult.usage u₁ := by
  cases u with
  | mk d k c =>
    simp only [estimate_usage_cost, EstimateResult.usage.injEq] at h
    subst h
    rfl

/-- Witness for C9: a concrete winter record costed once, then again. -/
theorem C9_idempotent_witness :
    estimate_usage_cost
        (some { base := 1, first_block := 1, second_block := 1, misc_per_kWh := 1 })
        { date := { t := 0, month := 1 }, usage_kWh := 3, cost := 7 }
      = EstimateResult.usage { date := { t := 0, month := 1 }, usage_kWh := 3, cost := 7 } :=
  C9_idempotent { base := 1, first_block := 1, second_block := 1, misc_per_kWh := 1 }
    { date := { t := 0, month := 1 }, usage_kWh := 3, cost := 0 }
    { date := { t := 0, month := 1 }, usage_kWh := 3, cost := 7 }
    (by norm_num [estimate_usage_cost, min_def, max_def])

/-- C10: the cost calculator modifies only the `cost` field: whenever it
returns a usage record, that record's `date` and `usage_kWh` are identical
to the input's. -/
theorem C10_frame (r : Rates) (u u₁ : MeterUsage)
    (h : estimate_usage_cost (some r) u = EstimateResult.usage u₁) :
    u₁.date = u.date ∧ u₁.usage_kWh = u.usage_kWh := by
  cases u with
  | mk d k c =>
    simp only [estimate_usage_cost, EstimateResult.usage.injEq] at h
    subst h
    exact ⟨rfl, rfl⟩

/-- Witness for C10 at a concrete summer record. -/
theorem C10_frame_witness :
    ({ date := { t := 5, month := 6 }, usage_kWh := 12, cost := 4 } : MeterUsage).date
        = ({ date := { t := 5, month := 6 }, usage_kWh := 12, cost := 0 } : MeterUsage).date
    ∧ ({ date := { t := 5, month := 6 }, usage_kWh := 12, cost := 4 } : MeterUsage).usage_kWh
        = ({ date := { t := 5, month := 6 }, usage_kWh := 12, cost := 0 } : MeterUsage).usage_kWh :=
  C10_frame { base := 2, first_block := 0, second_block := 1, misc_per_kWh := 0 }
    { date := { t := 5, month := 6 }, usage_kWh := 12, cost := 0 }
    { date := { t := 5, month := 6 }, usage_kWh := 12, cost := 4 }
    (by norm_num [estimate_usage_cost, min_def, max_def])

/-- Embeds the authentication token bundle JSON stored in
`OracleClient._authentication_token_info`: the keys actually read by the
client.  `created` is a millisecond epoch timestamp; `expires_in` is a
duration in seconds; either key may be absent from the JSON object. -/
structure TokenInfo where
  created : Option ℤ
  expires_in : Option ℚ
  access_token : Option String
deriving DecidableEq, Repr

/-- Embeds the `OracleClient.token_created_at` property (lines 67-71).
`info` is `self._authentication_token_info`.  When `info` is `None`
(no login ever happened), the Python expression
`"created" not in self._authentication_token_info` raises `TypeError`
(`argument of type 'NoneType' is not iterable`).  Otherwise a missing
`created` key yields `None`, and a present key yields
`datetime.fromtimestamp(created / 1000)`, i.e. the epoch second
`created / 1000`. -/
def token_created_at (info : Option TokenInfo) : Except PyError (Option ℚ) :=
  match info with
  | none => Except.error PyError.typeError
  | some i =>
    match i.created with
    | none => Except.ok none
    | some c => Except.ok (some ((c : ℚ) / 1000))

/-- Embeds the `OracleClient.token_expires_in` property (lines 73-77): a
missing `expires_in` key is treated as a zero duration; raises `TypeError`
when the bundle itself is `None`. -/
def token_expires_in (info : Option TokenInfo) : Except PyError ℚ :=
  match info with
  | none => Except.error PyError.typeError
  | some i =>
    match i.expires_in with
    | none => Except.ok 0
    | some e => Except.ok e

/-- Embeds the `OracleClient.is_token_expired` property (lines 79-84).
`now` is `datetime.now()` in epoch seconds.  The result is
`datetime.now() - token_created_at >= token_expires_in`, with the `None`
creation timestamp short-circuiting to `True`; any exception raised by the
two properties propagates. -/
def is_token_expired (info : Option TokenInfo) (now : ℚ) : Except PyError Bool :=
  match token_created_at info with
  | Except.error e => Except.error e
  | Except.ok none => Except.ok true
  | Except.ok (some created) =>
    match token_expires_in info with
    | Except.error e => Except.error e
    | Except.ok expires => Except.ok (decide (now - created ≥ expires))

/-- C2 (code bug): the claim says `is_token_expired` returns `True` and does
not raise before any login; on a client that has never obtained a token
bundle the code instead raises `TypeError`, because `token_created_at`
evaluates `"created" not in None`.  Once a bundle with a `created`
timestamp and an `expires_in` duration exists, the property does return
exactly `now - created ≥ expires_in`, and a zero `expires_in` makes it true
whenever the clock has not run backwards, as the claim states. -/
theorem C2_token_expiry :
    is_token_expired none 0 = Except.error PyError.typeError
    ∧ (∀ (c : ℤ) (e : ℚ) (a : Option String) (now : ℚ),
        is_token_expired (some { created := some c, expires_in := some e, access_token := a }) now
          = Except.ok (decide (now - (c : ℚ) / 1000 ≥ e)))
    ∧ (∀ (c : ℤ) (a : Option String) (now : ℚ), (c : ℚ) / 1000 ≤ now →
        is_token_expired (some { created := some c, expires_in := some 0, access_token := a }) now
          = Except.ok true) := by
  refine ⟨rfl, fun c e a now => rfl, fun c a now h => ?_⟩
  simp only [is_token_expired, token_created_at, token_expires_in]
  simp [ge_iff_le, sub_nonneg, h]

/-- Witness for C2: a bundle created at epoch 0 with a zero duration is
already expired one second later. -/
theorem C2_token_expiry_witness :
    is_token_expired (some { created := some 0, expires_in := some 0, access_token := none }) 1
      = Except.ok true :=
  C2_token_expiry.2.2 0 none 1 (by norm_num)

/-- The identity data scraped from the Oracle login page by
`OracleClient.__get_oracle_identity`: the `setItem` keys the login flow
reads (`signinAT`, `baseUri`) plus the JSON-decoded `initialState`,
modelled opaquely as a string. -/
structure IdentityData where
  signinAT : Option String
  baseUri : Option String
  initialState : String
deriving DecidableEq, Repr

/-- The JSON object returned by `OracleClient.__get_authentication_tokens`;
the login flow only reads its `authnToken` key. -/
structure AuthTokens where
  authnToken : Option String
deriving DecidableEq, Repr

/-- A Python dict of form fields: attribute values scraped from HTML can be
`None`, so both keys and values are optional strings. -/
def FormData := List (Option String × Option String)

/-- Result of `OracleClient.__submit_form`: the response's `Location` header
(if any) plus the form action and fields parsed from the response body. -/
structure FormResponse where
  location : Option String
  form_url : Option String
  form_data : FormData

/-- The network environment of one login attempt: the outcome of each
fallible step of `OracleClient._login`'s try-block, as a function of the
data the code sends into that step.  Each `Except.error` models the Python
exception the corresponding block of requests/parsing would raise. -/
structure LoginEnv where
  get_oracle_identity : Except PyError IdentityData
  get_authentication_tokens : String → String → IdentityData → Except PyError AuthTokens
  submit_form : Option String → FormData → Except PyError FormResponse
  token_request : String → Except PyError TokenInfo

/-- Embeds `urllib.parse.urljoin(identity_data.get("baseUri"), "sso/v1/sdk/session")`;
joining onto a `None` base raises `AttributeError` in Python, which the
caller's try-block would catch, so the join itself is kept total here and
the base is simply threaded through. -/
def urljoin (base : Option String) (path : String) : Option String :=
  base.map (fun b => b ++ "/" ++ path)

/-- Embeds `saml_loc.rsplit("/", 1)` followed by the tuple unpacking
`_, usertoken = ...` (line 181): `None` has no `rsplit` (`AttributeError`),
a string without `/` unpacks into one element (`ValueError`), otherwise the
token is the substring after the last slash. -/
def rsplit_usertoken (saml_loc : Option String) : Except PyError String :=
  match saml_loc with
  | none => Except.error PyError.attributeError
  | some s =>
    let parts := s.splitOn "/"
    if parts.length < 2 then Except.error PyError.valueError
    else Except.ok (parts.getLastD "")

/-- Embeds the try-block of `OracleClient._login` (lines 168-197): the
strictly sequential pipeline identity → authentication tokens → session
form → login form → SAML form → user-token extraction → token exchange,
each step consuming the previous step's output and any step's exception
aborting the whole block. -/
def login_pipeline (username password : String) (env : LoginEnv) : Except PyError TokenInfo := do
  let identity_data ← env.get_oracle_identity
  let authentication_tokens ← env.get_authentication_tokens username password identity_data
  let session_url := urljoin identity_data.baseUri "sso/v1/sdk/session"
  let s1 ← env.submit_form session_url [(some "authnToken", authentication_tokens.authnToken)]
  let s2 ← env.submit_form s1.form_url s1.form_data
  let s3 ← env.submit_form s2.form_url s2.form_data
  let usertoken ← rsplit_usertoken s3.location
  env.token_request usertoken

/-- The error raised by `OracleClient._login` on any failure:
`ConnectionRefusedError("Failed to login to Seattle Utility") from e`, a
single wrapper carrying the original cause. -/
inductive LoginError where
  | connectionRefused (cause : PyError)
deriving DecidableEq, Repr

/-- Embeds `OracleClient._login` (lines 167-200), acting on the client state
`self._authentication_token_info`: on success the bundle is replaced by the
token response, on any exception the except-block re-raises the wrapper and
the bundle keeps its previous value (the only assignment to it is the last
statement of the try-block). -/
def login_impl (st : Option TokenInfo) (username password : String) (env : LoginEnv) :
    Except LoginError Unit × Option TokenInfo :=
  match login_pipeline username password env with
  | Except.error e => (Except.error (LoginError.connectionRefused e), st)
  | Except.ok tok => (Except.ok (), some tok)

/-- C3: for every client state and every login attempt that fails at any
step of the authentication pipeline, the previously stored token bundle is
left unchanged and the failure is raised as the single wrapper error
carrying the original cause; the bundle is replaced (by the token response)
only on a fully successful login. -/
theorem C3_login_atomic (st : Option TokenInfo) (u p : String) (env : LoginEnv) :
    (∀ e, login_pipeline u p env = Except.error e →
        login_impl st u p env = (Except.error (LoginError.connectionRefused e), st))
    ∧ (∀ tok, login_pipeline u p env = Except.ok tok →
        login_impl st u p env = (Except.ok (), some tok)) := by
  constructor
  · intro e he
    simp only [login_impl, he]
  · intro tok htok
    simp only [login_impl, htok]

/-- Witness for C3: an environment whose very first hop fails leaves a
previously stored bundle untouched and surfaces the wrapped cause. -/
theorem C3_login_atomic_witness :
    login_impl (some { created := some 5, expires_in := some 60, access_token := some "tok" })
        "u" "p"
        { get_oracle_identity := Except.error PyError.connectionError,
          get_authentication_tokens := fun _ _ _ => Except.error PyError.connectionError,
          submit_form := fun _ _ => Except.error PyError.connectionError,
          token_request := fun _ => Except.error PyError.connectionError }
      = (Except.error (LoginError.connectionRefused PyError.connectionError),
          some { created := some 5, expires_in := some 60, access_token := some "tok" }) :=
  (C3_login_atomic (some { created := some 5, expires_in := some 60, access_token := some "tok" })
      "u" "p"
      { get_oracle_identity := Except.error PyError.connectionError,
        get_authentication_tokens := fun _ _ _ => Except.error PyError.connectionError,
        submit_form := fun _ _ => Except.error PyError.connectionError,
        token_request := fun _ => Except.error PyError.connectionError }).1
    PyError.connectionError rfl

/-- One scripted HTTP response: a status code and the decoded JSON payload,
modelled opaquely as a string. -/
structure HttpResponse where
  status : ℕ
  body : String
deriving DecidableEq, Repr

/-- Observable trace of one call to `request_payload`: its outcome, how many
HTTP requests it issued, and how many times it invoked the login pipeline. -/
structure RequestTrace where
  result : Except PyError String
  requests : ℕ
  relogins : ℕ

/-- Embeds the `OracleClient._access_token` property (lines 202-206): raises
when no token bundle is stored, otherwise reads the `access_token` key. -/
def access_token (info : Option TokenInfo) : Except PyError (Option String) :=
  match info with
  | none => Except.error PyError.authenticationTokenNotSet
  | some i => Except.ok i.access_token

/-- Embeds `OracleClient.request_payload` (lines 208-221), the single code
path through which every authenticated discovery and usage request is made.
`transport` scripts the responses the network would return to successive
requests; the function consumes one response per request it issues.
`raise_for_status()` raises `HTTPError` for every status in [400, 600); the
body of the sole request is returned otherwise.  The method body contains
no call to `_login` and no loop, which the `relogins` and `requests`
counters of the trace record. -/
def request_payload (info : Option TokenInfo) (transport : List HttpResponse) : RequestTrace :=
  match access_token info with
  | Except.error e => { result := Except.error e, requests := 0, relogins := 0 }
  | Except.ok _ =>
    match transport with
    | [] => { result := Except.error PyError.connectionError, requests := 1, relogins := 0 }
    | res :: _ =>
      if 400 ≤ res.status ∧ res.status < 600 then
        { result := Except.error (PyError.httpError res.status), requests := 1, relogins := 0 }
      else
        { result := Except.ok res.body, requests := 1, relogins := 0 }

/-- C5 counterexample: the claim says a 401 response triggers exactly one
re-login and exactly one retry.  Scripting a transport whose first response
is a 401 and whose second response would succeed, `request_payload` issues
exactly one request, performs zero re-logins (not one) and fails hard with
the HTTP error, even though the claimed retry would have succeeded. -/
theorem C5_counterexample :
    (request_payload (some { created := some 0, expires_in := some 60, access_token := some "t" })
        [{ status := 401, body := "expired" }, { status := 200, body := "payload" }]).result
      = Except.error (PyError.httpError 401)
    ∧ (request_payload (some { created := some 0, expires_in := some 60, access_token := some "t" })
        [{ status := 401, body := "expired" }, { status := 200, body := "payload" }]).requests = 1
    ∧ ¬ ((request_payload (some { created := some 0, expires_in := some 60, access_token := some "t" })
        [{ status := 401, body := "expired" }, { status := 200, body := "payload" }]).relogins = 1
      ∧ (request_payload (some { created := some 0, expires_in := some 60, access_token := some "t" })
        [{ status := 401, body := "expired" }, { status := 200, body := "payload" }]).requests = 2) := by
  refine ⟨rfl, rfl, ?_⟩
  intro h
  simpa [request_payload, access_token] using h.1

/-- C5 as amended: an authenticated request that receives a 401-class
(4xx/5xx) response fails immediately with that HTTP error after exactly one
request and zero re-logins; the client never retries and never loops, and
expired tokens are instead handled by callers checking `is_token_expired`
before starting an operation. -/
theorem C5_no_retry (info : TokenInfo) (res : HttpResponse) (rest : List HttpResponse)
    (h : 400 ≤ res.status ∧ res.status < 600) :
    request_payload (some info) (res :: rest)
      = { result := Except.error (PyError.httpError res.status), requests := 1, relogins := 0 } := by
  simp [request_payload, access_token, h]

/-- Witness for the amended C5 at a concrete 401 response. -/
theorem C5_no_retry_witness :
    request_payload (some { created := some 0, expires_in := some 60, access_token := some "t" })
        [{ status := 401, body := "expired" }]
      = { result := Except.error (PyError.httpError 401), requests := 1, relogins := 0 } :=
  C5_no_retry { created := some 0, expires_in := some 60, access_token := some "t" }
    { status := 401, body := "expired" } [] (by norm_num)

/-- One entry of the `history` array returned by the `rest/usage/month`
endpoint, with its fields already decoded: `chargeDateRaw` parsed by
`strptime(.., "%Y-%m-%d")` and `billedConsumption` converted by `float`. -/
structure HistoryEntry where
  chargeDateRaw : PyDatetime
  billedConsumption : ℚ
deriving DecidableEq, Repr

/-- Embeds the final statement of `SeattleUtilityClient.get_daily_usage`
(lines 335-338): forcing
`list(filter(lambda usage: start <= usage.date <= end, costed))` where
`costed` is the stream of `_estimate_usage_cost` results.  Evaluating
`usage.date` on the **int** `0` produced when rates are absent raises
`AttributeError`. -/
def list_filter_costed (start stop : PyDatetime) :
    List EstimateResult → Except PyError (List MeterUsage)
  | [] => Except.ok []
  | EstimateResult.intZero :: _ => Except.error PyError.attributeError
  | EstimateResult.usage u :: rest =>
    match list_filter_costed start stop rest with
    | Except.error e => Except.error e
    | Except.ok l => Except.ok (if start ≤ u.date ∧ u.date ≤ stop then u :: l else l)

/-- Embeds `SeattleUtilityClient.get_daily_usage` (lines 318-338) after the
network fetch: `history` is the decoded `history` array of the response;
each entry becomes a `MeterUsage`, is costed by `_estimate_usage_cost`, and
the result is filtered to the closed interval `[start, stop]`. -/
def get_daily_usage (rates : Option Rates) (history : List HistoryEntry)
    (start stop : PyDatetime) : Except PyError (List MeterUsage) :=
  let daily_bill_usage := history.map (fun day =>
    ({ date := day.chargeDateRaw, usage_kWh := day.billedConsumption, cost := 0 } : MeterUsage))
  list_filter_costed start stop (daily_bill_usage.map (estimate_usage_cost rates))

/-- Embeds `SeattleUtilityClient.get_latest_meter_usage` (lines 376-387)
after the network fetch: `yesterday` is yesterday at 00:00 and `today` is
today at the last representable instant of the day; the result is
`next(reversed([u for u in daily_usage if bool(u.usage_kWh) and yesterday <= u.date <= today]), None)`. -/
def get_latest_meter_usage (rates : Option Rates) (history : List HistoryEntry)
    (yesterday today : PyDatetime) : Except PyError (Option MeterUsage) :=
  match get_daily_usage rates history yesterday today with
  | Except.error e => Except.error e
  | Except.ok daily_usage =>
    Except.ok (((daily_usage.filter (fun u =>
        decide (u.usage_kWh ≠ 0) && (decide (yesterday ≤ u.date) && decide (u.date ≤ today)))).reverse).head?)

/-- The usage record produced by `_estimate_usage_cost` when rates are
present: the input with its `cost` field replaced by the tiered-rate total. -/
def apply_rates (r : Rates) (u : MeterUsage) : MeterUsage :=
  match estimate_usage_cost (some r) u with
  | EstimateResult.intZero => u
  | EstimateResult.usage v => v

theorem estimate_usage_cost_some (r : Rates) (u : MeterUsage) :
    estimate_usage_cost (some r) u = EstimateResult.usage (apply_rates r u) := rfl

theorem list_filter_costed_usages (y t : PyDatetime) (l : List MeterUsage) :
    list_filter_costed y t (l.map EstimateResult.usage)
      = Except.ok (l.filter (fun u => decide (y ≤ u.date) && decide (u.date ≤ t))) := by
  induction l with
  | nil => rfl
  | cons u rest ih =>
    simp only [List.map_cons, list_filter_costed, ih, List.filter_cons]
    by_cases h : y ≤ u.date ∧ u.date ≤ t
    · simp [h]
    · simp only [if_neg h]
      rcases not_and_or.mp h with h1 | h1 <;> simp [h1]

theorem get_daily_usage_some (r : Rates) (history : List HistoryEntry)
    (y t : PyDatetime) :
    get_daily_usage (some r) history y t
      = Except.ok ((history.map (fun day => apply_rates r
            { date := day.chargeDateRaw, usage_kWh := day.billedConsumption, cost := 0 })).filter
          (fun u => decide (y ≤ u.date) && decide (u.date ≤ t))) := by
  show list_filter_costed y t
      ((history.map (fun day =>
        ({ date := day.chargeDateRaw, usage_kWh := day.billedConsumption, cost := 0 } : MeterUsage))).map
        (estimate_usage_cost (some r))) = _
  rw [List.map_map]
  have : (estimate_usage_cost (some r) ∘ fun (day : HistoryEntry) =>
      ({ date := day.chargeDateRaw, usage_kWh := day.billedConsumption, cost := 0 } : MeterUsage))
      = EstimateResult.usage ∘ (fun (day : HistoryEntry) => apply_rates r
          { date := day.chargeDateRaw, usage_kWh := day.billedConsumption, cost := 0 }) := by
    funext day
    exact estimate_usage_cost_some r _
  rw [this, ← List.map_map]
  exact list_filter_costed_usages y t _

theorem PyDatetime.le_def (a b : PyDatetime) : a ≤ b ↔ a.t ≤ b.t := Iff.rfl

/-- C8 (code bug): the claim says that with an absent rate schedule the
cost calculator yields the usage record with cost zero so that the daily
usage fetch still produces a record per history entry.  The code instead
returns the **int** `0`; consequently `get_daily_usage`'s window filter
evaluates `usage.date` on an int and raises `AttributeError`, so consumers
receive no records at all. -/
theorem C8_rates_absent :
    (∀ u : MeterUsage, estimate_usage_cost none u = EstimateResult.intZero)
    ∧ get_daily_usage none [{ chargeDateRaw := { t := 10, month := 5 }, billedConsumption := 5 }]
        { t := 0, month := 5 } { t := 200, month := 5 }
      = Except.error PyError.attributeError :=
  ⟨fun _ => rfl, rfl⟩

/-- C6: the latest usage for a meter is the last record of the
chronologically ordered, window-filtered, costed history whose date lies in
the closed interval [yesterday 00:00, end of today] and whose kWh reading
is non-zero; absence of such a record yields `none`, not an error.  In
particular, for a history of two entries — yesterday with kWh 5 and today
with kWh 0 — yesterday's entry is returned with its cost computed. -/
theorem C6_latest_usage (r : Rates) (history : List HistoryEntry) (y t : PyDatetime) :
    get_latest_meter_usage (some r) history y t
      = Except.ok (((history.map (fun day => apply_rates r
            { date := day.chargeDateRaw, usage_kWh := day.billedConsumption, cost := 0 })).filter
          (fun u => decide (u.usage_kWh ≠ 0) && (decide (y ≤ u.date) && decide (u.date ≤ t)))).getLast?)
    ∧ get_latest_meter_usage (some { base := 1, first_block := 2, second_block := 3, misc_per_kWh := 4 })
        [{ chargeDateRaw := { t := 10, month := 5 }, billedConsumption := 5 },
         { chargeDateRaw := { t := 100, month := 5 }, billedConsumption := 0 }]
        { t := 0, month := 5 } { t := 200, month := 5 }
      = Except.ok (some { date := { t := 10, month := 5 }, usage_kWh := 5, cost := 31 }) := by
  constructor
  · have hb : ∀ (a b : Bool), ((a && b) && b) = (a && b) := by decide
    simp only [get_latest_meter_usage, get_daily_usage_some, List.filter_filter,
      List.head?_reverse]
    congr 1
    congr 1
    exact List.filter_congr (fun x _ => hb _ _)
  · norm_num [get_latest_meter_usage, get_daily_usage, list_filter_costed,
      estimate_usage_cost, apply_rates, min_def, max_def, List.filter,
      PyDatetime.le_def]

/-- One callback event delivered by Python's `html.parser.HTMLParser`
tokenizer to the `HTMLOracleFormParser` subclass.  Modelled from CPython's
`html.parser`: a plain start tag `<input ...>` produces only a start-tag
event (void elements are never auto-closed), an explicit `</tag>` produces
an end-tag event, and a self-closing `<tag ... />` produces a
start-end event whose default handler runs `handle_starttag` followed by
`handle_endtag`.  An attribute written without a value has value `none`. -/
inductive HtmlEvent where
  | startTag (tag : String) (attrs : List (String × Option String))
  | endTag (tag : String)
  | startEndTag (tag : String) (attrs : List (String × Option String))
deriving DecidableEq, Repr

/-- The mutable state of `OracleClient.HTMLOracleFormParser`
(lines 22-59). -/
structure FormScrapeState where
  form_url : Option String
  form_data : List (Option String × Option String)
  name : Option String
  value : Option String
deriving DecidableEq, Repr

/-- The state set up by `HTMLOracleFormParser.__init__` / `reset`. -/
def initFormScrapeState : FormScrapeState :=
  { form_url := none, form_data := [], name := none, value := none }

/-- CPython dict assignment `d[k] = v`: replace the value in place when the
key exists (keeping its position), append otherwise. -/
def dict_update (d : List (Option String × Option String)) (k v : Option String) :
    List (Option String × Option String) :=
  if d.any (fun p => decide (p.1 = k)) then
    d.map (fun p => if p.1 = k then (k, v) else p)
  else d ++ [(k, v)]

/-- Embeds `HTMLOracleFormParser.handle_starttag` (lines 37-48).  Note two
faithful quirks of the source: every `form` tag's `action` overwrites
`form_url` (so the last form wins), and the membership tests
`"name" in attr` / `"value" in attr` are Python tuple membership, true when
either the attribute's name or its value equals the probed string. -/
def handle_starttag (s : FormScrapeState) (tag : String)
    (attrs : List (String × Option String)) : FormScrapeState :=
  let s :=
    if tag = "form" then
      let u := attrs.foldl (fun u attr => if attr.1 = "action" then attr.2 else u) s.form_url
      { s with form_url := u }
    else s
  if tag = "input" then
    attrs.foldl (fun st attr =>
      let st := if attr.1 = "name" ∨ attr.2 = some "name" then { st with name := attr.2 } else st
      if attr.1 = "value" ∨ attr.2 = some "value" then { st with value := attr.2 } else st) s
  else s

/-- Embeds `HTMLOracleFormParser.handle_endtag` (lines 50-55): on an input
end tag the current `name`/`value` pair — either of which may be `None` —
is stored unconditionally and both are reset. -/
def handle_endtag (s : FormScrapeState) (tag : String) : FormScrapeState :=
  if tag ≠ "input" then s
  else { s with form_data := dict_update s.form_data s.name s.value,
                name := none, value := none }

/-- Dispatches one tokenizer event to the subclass's handlers, with the
inherited `handle_startendtag` default of start-then-end. -/
def processEvent (s : FormScrapeState) : HtmlEvent → FormScrapeState
  | HtmlEvent.startTag tag attrs => handle_starttag s tag attrs
  | HtmlEvent.endTag tag => handle_endtag s tag
  | HtmlEvent.startEndTag tag attrs => handle_endtag (handle_starttag s tag attrs) tag

/-- Embeds `parser.feed(document)` on a fresh parser: fold the handlers
over the document's event stream. -/
def feedEvents (events : List HtmlEvent) : FormScrapeState :=
  events.foldl processEvent initFormScrapeState

/-- The `form_info` property (lines 57-59). -/
def form_info (s : FormScrapeState) :
    Option String × List (Option String × Option String) :=
  (s.form_url, s.form_data)

/-- Event stream CPython's tokenizer produces for the claim's document
`<form action="/x"><input name="a" value="1"><input name="b" value="2"></form>`:
the two plain (non-self-closed) input tags produce start-tag events only. -/
def exampleFormEvents : List HtmlEvent :=
  [HtmlEvent.startTag "form" [("action", some "/x")],
   HtmlEvent.startTag "input" [("name", some "a"), ("value", some "1")],
   HtmlEvent.startTag "input" [("name", some "b"), ("value", some "2")],
   HtmlEvent.endTag "form"]

/-- The same form with self-closing inputs
`<form action="/x"><input name="a" value="1"/><input name="b" value="2"/></form>`. -/
def exampleFormEventsSelfClosing : List HtmlEvent :=
  [HtmlEvent.startTag "form" [("action", some "/x")],
   HtmlEvent.startEndTag "input" [("name", some "a"), ("value", some "1")],
   HtmlEvent.startEndTag "input" [("name", some "b"), ("value", some "2")],
   HtmlEvent.endTag "form"]

/-- Whether an event is an end event for an `input` tag — the only kind of
event that commits a pair to `form_data`. -/
def isInputEnd : HtmlEvent → Bool
  | HtmlEvent.endTag tag => decide (tag = "input")
  | HtmlEvent.startEndTag tag _ => decide (tag = "input")
  | HtmlEvent.startTag _ _ => false

/-- C4 counterexample: on the claim's own document
`<form action="/x"><input name="a" value="1"><input name="b" value="2"></form>`
the parser's mapping is empty, not `{a: "1", b: "2"}` — plain input tags
never trigger `handle_endtag`, which is the only place pairs are stored. -/
theorem C4_counterexample :
    (feedEvents exampleFormEvents).form_data = []
    ∧ (feedEvents exampleFormEvents).form_data
        ≠ [(some "a", some "1"), (some "b", some "2")] := by
  constructor
  · rfl
  · decide

theorem attr_fold_form_data (attrs : List (String × Option String)) :
    ∀ s : FormScrapeState,
      (attrs.foldl (fun st attr =>
        let st := if attr.1 = "name" ∨ attr.2 = some "name" then { st with name := attr.2 } else st
        if attr.1 = "value" ∨ attr.2 = some "value" then { st with value := attr.2 } else st) s).form_data
      = s.form_data := by
  induction attrs with
  | nil => intro s; rfl
  | cons a rest ih =>
    intro s
    rw [List.foldl_cons, ih]
    by_cases h1 : a.1 = "name" ∨ a.2 = some "name" <;>
      by_cases h2 : a.1 = "value" ∨ a.2 = some "value" <;> simp [h1, h2]

theorem handle_starttag_form_data (s : FormScrapeState) (tag : String)
    (attrs : List (String × Option String)) :
    (handle_starttag s tag attrs).form_data = s.form_data := by
  by_cases hf : tag = "form" <;> by_cases hi : tag = "input" <;>
    simp [handle_starttag, hf, hi, attr_fold_form_data]

theorem feed_no_input_end (events : List HtmlEvent) :
    ∀ s : FormScrapeState, (∀ e ∈ events, isInputEnd e = false) →
      (events.foldl processEvent s).form_data = s.form_data := by
  induction events with
  | nil => intro s _; rfl
  | cons e rest ih =>
    intro s h
    rw [List.foldl_cons, ih _ (fun x hx => h x (List.mem_cons_of_mem _ hx))]
    have he := h e (List.mem_cons_self _ _)
    cases e with
    | startTag tag attrs => exact handle_starttag_form_data s tag attrs
    | endTag tag =>
      simp only [isInputEnd, decide_eq_false_iff_not] at he
      simp [processEvent, handle_endtag, he]
    | startEndTag tag attrs =>
      simp only [isInputEnd, decide_eq_false_iff_not] at he
      simp [processEvent, handle_endtag, he, handle_starttag_form_data]

/-- C4 as amended: the parser records a pair in its mapping only when an
`input` end event is processed (an explicit `</input>` or a self-closing
`<input ... />`); a document with no such event — including the claim's own
document, whose plain `<input>` tags are void elements that produce only
start-tag events — yields an empty mapping.  On the self-closing variant
`<form action="/x"><input name="a" value="1"/><input name="b" value="2"/></form>`
it returns action `/x` and the mapping `{a: "1", b: "2"}`; a tag omitting
an attribute still records a pair, with `None` in the omitted position. -/
theorem C4_form_scrape (events : List HtmlEvent)
    (h : ∀ e ∈ events, isInputEnd e = false) :
    (feedEvents events).form_data = []
    ∧ form_info (feedEvents exampleFormEventsSelfClosing)
        = (some "/x", [(some "a", some "1"), (some "b", some "2")])
    ∧ (feedEvents [HtmlEvent.startEndTag "input" [("name", some "a")]]).form_data
        = [(some "a", none)] :=
  ⟨feed_no_input_end events initFormScrapeState h, by decide, by decide⟩

/-- Witness for the amended C4, instantiated at the claim's own document
(whose event stream contains no input end event). -/
theorem C4_form_scrape_witness :
    (feedEvents exampleFormEvents).form_data = []
    ∧ form_info (feedEvents exampleFormEventsSelfClosing)
        = (some "/x", [(some "a", some "1"), (some "b", some "2")])
    ∧ (feedEvents [HtmlEvent.startEndTag "input" [("name", some "a")]]).form_data
        = [(some "a", none)] :=
  C4_form_scrape exampleFormEvents (by decide)

/-- Embeds the `Account` dataclass. -/
structure Account where
  account_number : String
  person_id : String
  service_address : String
deriving DecidableEq, Repr

/-- Embeds the `Bill` dataclass: a service id and the bill's list of meter
identifiers. -/
structure Bill where
  service_id : String
  meters : List String
deriving DecidableEq, Repr

/-- Embeds the `Meter` dataclass: an identifier with back-references to the
owning account and bill. -/
structure Meter where
  id : String
  account : Account
  bill : Bill
deriving DecidableEq, Repr

/-- One decoded account holder from the `rest/account/list/some` response,
together with its already-decoded bill list from `rest/billing/comparison`
(each bill's `serviceId` and `meters` keys as a `Bill`). -/
structure HolderData where
  accountNumber : String
  personId : String
  serviceAddress : String
  billList : List Bill
deriving DecidableEq, Repr

/-- One decoded account group from the `rest/account/list` response: its
`account` array of holders. -/
structure GroupData where
  account : List HolderData
deriving DecidableEq, Repr

/-- The body of `get_meters`' innermost loop (lines 364-373): skip a meter
id already present (`continue`), otherwise `meters.update({meter_id: meter})`
appends the new key at the end of the dict's insertion order. -/
def insert_meter (ms : List (String × Meter)) (meter_id : String) (m : Meter) :
    List (String × Meter) :=
  if ms.any (fun p => decide (p.1 = meter_id)) then ms else ms ++ [(meter_id, m)]

/-- Embeds `SeattleUtilityClient.get_meters` (lines 340-374) after the
network fetches: the nested traversal over account groups, holder accounts
and bills, accumulating the meter-id-keyed insertion-ordered dict.  The
`Account` value Python builds once per holder is inlined at its single use
site. -/
def get_meters (accountGroups : List GroupData) : List (String × Meter) :=
  accountGroups.foldl (fun meters group =>
    group.account.foldl (fun meters holder_account =>
      holder_account.billList.foldl (fun meters bill =>
        bill.meters.foldl (fun meters meter_id =>
          insert_meter meters meter_id
            { id := meter_id,
              account := { account_number := holder_account.accountNumber,
                           person_id := holder_account.personId,
                           service_address := holder_account.serviceAddress },
              bill := bill }) meters) meters) meters) []

/-- The flat sequence of (meter id, meter) pairs in the order the
traversal of `get_meters` encounters them. -/
def meter_traversal (accountGroups : List GroupData) : List (String × Meter) :=
  accountGroups.flatMap (fun group =>
    group.account.flatMap (fun holder_account =>
      holder_account.billList.flatMap (fun bill =>
        bill.meters.map (fun meter_id =>
          (meter_id,
           { id := meter_id,
             account := { account_number := holder_account.accountNumber,
                          person_id := holder_account.personId,
                          service_address := holder_account.serviceAddress },
             bill := bill })))))

/-- First-match lookup in the meter dict, i.e. CPython `meters[k]`
membership order. -/
def lookup_meter (ms : List (String × Meter)) (k : String) : Option Meter :=
  (ms.find? (fun p => decide (p.1 = k))).map Prod.snd

theorem foldl_flatMap {α β γ : Type} (g : γ → List α) (f : β → α → β)
    (l : List γ) (b : β) :
    ((l.flatMap g).foldl f b) = l.foldl (fun acc c => (g c).foldl f acc) b := by
  induction l generalizing b with
  | nil => rfl
  | cons c rest ih => rw [List.flatMap_cons, List.foldl_append, List.foldl_cons, ih]

theorem get_meters_eq_foldl (accountGroups : List GroupData) :
    get_meters accountGroups
      = (meter_traversal accountGroups).foldl (fun ms p => insert_meter ms p.1 p.2) [] := by
  unfold get_meters meter_traversal
  rw [foldl_flatMap]
  congr 1
  funext ms g
  rw [foldl_flatMap]
  congr 1
  funext ms h
  rw [foldl_flatMap]
  congr 1
  funext ms b
  rw [List.foldl_map]

theorem lookup_insert_meter (acc : List (String × Meter)) (k' : String) (m : Meter)
    (k : String) :
    lookup_meter (insert_meter acc k' m) k
      = match lookup_meter acc k with
        | some v => some v
        | none => if k' = k then some m else none := by
  unfold insert_meter lookup_meter
  by_cases hany : acc.any (fun p => decide (p.1 = k')) = true
  · rw [if_pos hany]
    cases hfind : acc.find? (fun p => decide (p.1 = k)) with
    | some p => rfl
    | none =>
      have hk : ¬ (k' = k) := by
        rcases List.any_eq_true.mp hany with ⟨p, hp, hpk⟩
        intro hkk
        exact (List.find?_eq_none.mp hfind p hp)
          (by simpa [hkk] using hpk)
      simp [hk]
  · rw [if_neg hany, List.find?_append]
    cases hfind : acc.find? (fun p => decide (p.1 = k)) with
    | some p => rfl
    | none =>
      by_cases hk : k' = k <;> simp [List.find?_cons, hk]

theorem lookup_meter_foldl (ps : List (String × Meter)) :
    ∀ (acc : List (String × Meter)) (k : String),
      lookup_meter (ps.foldl (fun ms p => insert_meter ms p.1 p.2) acc) k
        = match lookup_meter acc k with
          | some v => some v
          | none => lookup_meter ps k := by
  induction ps with
  | nil =>
    intro acc k
    rw [List.foldl_nil]
    cases h : lookup_meter acc k <;> rfl
  | cons p ps ih =>
    intro acc k
    rw [List.foldl_cons, ih, lookup_insert_meter]
    cases h : lookup_meter acc k with
    | some v => rfl
    | none =>
      by_cases hk : p.1 = k <;> simp [hk, lookup_meter, List.find?_cons]

theorem insert_meter_keys_nodup (acc : List (String × Meter)) (k' : String) (m : Meter)
    (h : (acc.map Prod.fst).Nodup) :
    ((insert_meter acc k' m).map Prod.fst).Nodup := by
  unfold insert_meter
  by_cases hany : acc.any (fun p => decide (p.1 = k')) = true
  · rw [if_pos hany]; exact h
  · rw [if_neg hany, List.map_append, List.nodup_append]
    refine ⟨h, List.nodup_singleton _, ?_⟩
    intro a ha hb
    rcases List.mem_map.mp ha with ⟨p, hp, hpa⟩
    have hb' : a = k' := by simpa using hb
    exact (List.any_eq_false.mp (Bool.not_eq_true _ ▸ hany) p hp)
      (by simp [hpa, hb'])

theorem keys_nodup_foldl (ps : List (String × Meter)) :
    ∀ acc : List (String × Meter), (acc.map Prod.fst).Nodup →
      (((ps.foldl (fun ms p => insert_meter ms p.1 p.2) acc).map Prod.fst).Nodup) := by
  induction ps with
  | nil => intro acc h; exact h
  | cons p ps ih =>
    intro acc h
    rw [List.foldl_cons]
    exact ih _ (insert_meter_keys_nodup _ _ _ h)

/-- C7: the discovery traversal returns exactly one `Meter` per meter
identifier (the dict's keys are duplicate-free), and the entry stored for
an identifier is the one built at its **first** occurrence in traversal
order — so when the same id recurs in a later bill the duplicate is
discarded without modifying the first entry. -/
theorem C7_meter_dedup (accountGroups : List GroupData) :
    ((get_meters accountGroups).map Prod.fst).Nodup
    ∧ ∀ k, lookup_meter (get_meters accountGroups) k
        = ((meter_traversal accountGroups).find? (fun p => decide (p.1 = k))).map Prod.snd := by
  constructor
  · rw [get_meters_eq_foldl]
    exact keys_nodup_foldl _ [] (by simp)
  · intro k
    rw [get_meters_eq_foldl, lookup_meter_foldl]
    rfl
